import Mathlib

/-!
Verification development for `kivent_core/managers/resource_managers.pyx`:
a shallow embedding of `ModelManager` and `TextureManager` together with
proofs about their documented behaviour.

Python dictionaries are modelled as association lists with
lookup/insert/erase operations; every manager method that may raise
`KeyError` returns the mutated-so-far state together with a `PyResult`,
because mutations performed before a Python exception persist.
Floating point pixel arithmetic is modelled over `ℚ`.
-/

namespace KivEnt

/-- Association-list lookup, modelling a Python `d[k]` read
(`none` stands for a `KeyError`). -/
def dlookup {κ α : Type} [DecidableEq κ] : List (κ × α) → κ → Option α
  | [], _ => none
  | (k, v) :: rest, k0 => if k = k0 then some v else dlookup rest k0

/-- Association-list insert-or-overwrite, modelling Python `d[k] = v`. -/
def dinsert {κ α : Type} [DecidableEq κ] : List (κ × α) → κ → α → List (κ × α)
  | [], k0, v0 => [(k0, v0)]
  | (k, v) :: rest, k0, v0 =>
      if k = k0 then (k0, v0) :: rest else (k, v) :: dinsert rest k0 v0

/-- Association-list removal, modelling Python `del d[k]` after a
presence check (all occurrences are removed; lists maintained through
`dinsert` hold each key at most once, so this agrees with `del`). -/
def derase {κ α : Type} [DecidableEq κ] : List (κ × α) → κ → List (κ × α)
  | [], _ => []
  | (k, v) :: rest, k0 =>
      if k = k0 then derase rest k0 else (k, v) :: derase rest k0

/-- Result of a Python call: a value, or a raised `KeyError`. -/
inductive PyResult (α : Type) where
  | ok (val : α)
  | keyError
  deriving Repr, DecidableEq

/-! ## External collaborators (opaque services per the specification) -/

/-- Modelled from the spec: the vertex-format registry entry, a read-only
record carrying the format's name and its per-vertex byte size
(`FormatConfig` lives outside this file's source). -/
structure FormatConfig where
  name : String
  size : Nat
  deriving Repr, DecidableEq

/-- Modelled from the spec: a block reserved from the buffer service.
The constructor arguments mirror `MemoryBlock(size, count, type_size)`;
the bytes taken from the master buffer by
`allocate_memory_with_buffer` are `size * count * type_size`. -/
structure MemoryBlock where
  size : Nat
  count : Nat
  type_size : Nat
  deriving Repr, DecidableEq

/-- Bytes the block takes from the master buffer. -/
def MemoryBlock.reserved (b : MemoryBlock) : Nat :=
  b.size * b.count * b.type_size

/-- Modelled from the spec: the opaque geometry `Model` object, holding
its vertex/index counts, its format, its stored name and (abstractly)
its written geometry data; `load_model` leaves the data uninitialized. -/
structure VertexModel where
  vertex_count : Nat
  index_count : Nat
  format_config : FormatConfig
  name : String
  data : Option (ℚ × ℚ × List ℚ)
  deriving Repr, DecidableEq

/-- Modelled from the spec: `Model.set_textured_rectangle(width, height,
uvs)` writes a textured-quad geometry into the model. -/
def VertexModel.set_textured_rectangle (m : VertexModel) (width height : ℚ)
    (uvs : List ℚ) : VertexModel :=
  { m with data := some (width, height, uvs) }

/-- Modelled from the spec: `Model.copy_vertex_model(other)` bulk-copies
the other model's vertex and index data into this model. -/
def VertexModel.copy_vertex_model (m other : VertexModel) : VertexModel :=
  { m with data := other.data }

/-! ## ModelManager -/

/-- State of a `ModelManager`: the default `allocation_size`, the
per-format `memory_blocks` (stored as the pair
`(vertices_block, indices_block)`), the `models`, `key_counts` and
`model_register` dictionaries. -/
structure ModelManager where
  allocation_size : Nat
  memory_blocks : List (String × (MemoryBlock × MemoryBlock))
  models : List (String × VertexModel)
  key_counts : List (String × Nat)
  model_register : List (String × List (Nat × String))
  deriving Repr, DecidableEq

/-- `ModelManager.__init__(allocation_size)`. -/
def ModelManager.init (allocation_size : Nat) : ModelManager :=
  { allocation_size := allocation_size
    memory_blocks := []
    models := []
    key_counts := []
    model_register := [] }

/-- `ModelManager.register_entity_with_model(entity_id, system_id,
model_name)`. -/
def register_entity_with_model (m : ModelManager) (entity_id : Nat)
    (system_id model_name : String) : ModelManager :=
  match dlookup m.model_register model_name with
  | none =>
      { m with model_register :=
          dinsert m.model_register model_name [(entity_id, system_id)] }
  | some inner =>
      { m with model_register :=
          dinsert m.model_register model_name (dinsert inner entity_id system_id) }

/-- `ModelManager.unregister_entity_with_model(entity_id, model_name)`:
`del self._model_register[model_name][entity_id]`, raising `KeyError`
when the model name or the entity id is absent. -/
def unregister_entity_with_model (m : ModelManager) (entity_id : Nat)
    (model_name : String) : ModelManager × PyResult Unit :=
  match dlookup m.model_register model_name with
  | none => (m, .keyError)
  | some inner =>
      match dlookup inner entity_id with
      | none => (m, .keyError)
      | some _ =>
          ({ m with model_register :=
              dinsert m.model_register model_name (derase inner entity_id) },
           .ok ())

/-- The loop body of `ModelManager.allocate`: for each requested format,
look its config up in the registry (`KeyError` if unregistered), build
two `MemoryBlock(allocation_size // 2, 1, 1)`, reserve them from the
master buffer, record them under the format name and add the requested
`vertex_size + index_size` to the running total. -/
def allocate_loop (vertex_formats : List (String × FormatConfig)) :
    ModelManager → List (String × (Nat × Nat)) → Nat → ModelManager × PyResult Nat
  | m, [], total => (m, .ok total)
  | m, (format, sizes) :: rest, total =>
      match dlookup vertex_formats format with
      | none => (m, .keyError)
      | some _ =>
          let indices_block : MemoryBlock := ⟨m.allocation_size / 2, 1, 1⟩
          let vertices_block : MemoryBlock := ⟨m.allocation_size / 2, 1, 1⟩
          let mb := dinsert m.memory_blocks format (vertices_block, indices_block)
          let m1 := { m with memory_blocks := mb }
          allocate_loop vertex_formats m1 rest (total + (sizes.1 + sizes.2))

/-- `ModelManager.allocate(master_buffer, formats_to_allocate)`: when the
mapping is empty, fill it with every registered format mapped to
`(allocation_size - allocation_size // 4, allocation_size // 4)`; then
run the reservation loop and return the accumulated total. -/
def allocate (vertex_formats : List (String × FormatConfig)) (m : ModelManager)
    (formats_to_allocate : List (String × (Nat × Nat))) : ModelManager × PyResult Nat :=
  let fta :=
    if formats_to_allocate = [] then
      vertex_formats.map (fun p =>
        (p.1, (m.allocation_size - m.allocation_size / 4, m.allocation_size / 4)))
    else formats_to_allocate
  allocate_loop vertex_formats m fta 0

/-- Total number of bytes the manager's memory blocks hold from the
master buffer. -/
def reservedBytes (m : ModelManager) : Nat :=
  (m.memory_blocks.map (fun p => p.2.1.reserved + p.2.2.reserved)).foldl (· + ·) 0

/-- `ModelManager.load_model(format_name, vertex_count, index_count,
name, do_copy)`, line for line: the format lookup happens first; a fresh
name is entered into `key_counts` with count `0` and used as is; an
existing name with `do_copy=False` returns early; an existing name with
`do_copy=True` rebinds `name` to `name + '_' + str(key_counts[name])`
and then executes `key_counts[name] += 1` on the rebound name — a read
of a key that raises `KeyError` when that derived name was never seen.
Afterwards the format's memory blocks are fetched and the new
`VertexModel` is stored under the resolved name. -/
def load_model (vertex_formats : List (String × FormatConfig)) (m : ModelManager)
    (format_name : String) (vertex_count index_count : Nat) (name : String)
    (do_copy : Bool) : ModelManager × PyResult String :=
  match dlookup vertex_formats format_name with
  | none => (m, .keyError)
  | some format_config =>
      match dlookup m.key_counts name with
      | none =>
          let m1 := { m with key_counts := dinsert m.key_counts name 0 }
          match dlookup m1.memory_blocks format_name with
          | none => (m1, .keyError)
          | some _ =>
              let model : VertexModel :=
                ⟨vertex_count, index_count, format_config, name, none⟩
              ({ m1 with models := dinsert m1.models name model }, .ok name)
      | some cnt =>
          if !do_copy then (m, .ok name)
          else
            let name2 := name ++ "_" ++ toString cnt
            match dlookup m.key_counts name2 with
            | none => (m, .keyError)
            | some cnt2 =>
                let m1 := { m with key_counts := dinsert m.key_counts name2 (cnt2 + 1) }
                match dlookup m1.memory_blocks format_name with
                | none => (m1, .keyError)
                | some _ =>
                    let model : VertexModel :=
                      ⟨vertex_count, index_count, format_config, name2, none⟩
                    ({ m1 with models := dinsert m1.models name2 model }, .ok name2)

/-- `ModelManager.copy_model(model_to_copy, model_name)`: fetch the
source model (`KeyError` when absent), default the target name to the
source name, `load_model` with `do_copy=True`, then bulk-copy the source
data into the stored model. -/
def copy_model (vertex_formats : List (String × FormatConfig)) (m : ModelManager)
    (model_to_copy : String) (model_name : Option String) : ModelManager × PyResult String :=
  match dlookup m.models model_to_copy with
  | none => (m, .keyError)
  | some src =>
      let mn := model_name.getD model_to_copy
      let res := load_model vertex_formats m src.format_config.name
        src.vertex_count src.index_count mn true
      match res.2 with
      | .keyError => (res.1, .keyError)
      | .ok real_name =>
          match dlookup res.1.models real_name with
          | none => (res.1, .keyError)
          | some stored =>
              let ms := dinsert res.1.models real_name (stored.copy_vertex_model src)
              ({ res.1 with models := ms }, .ok real_name)

/-! ## TextureManager -/

/-- Modelled from the spec: an already-decoded texture handle exposing
its pixel size (the image-decode service is external). -/
structure Texture where
  width : ℚ
  height : ℚ
  deriving Repr, DecidableEq

/-- A pixel rectangle `[x, y, w, h]` of an atlas entry, top-left origin. -/
structure Rect where
  x : ℚ
  y : ℚ
  w : ℚ
  h : ℚ
  deriving Repr, DecidableEq

/-- One image of a parsed atlas description: the image file's basename,
its decoded texture (decoding is external), and the mapping of
sub-image name to pixel rectangle. -/
structure AtlasImage where
  name : String
  texture : Texture
  content : List (String × Rect)
  deriving Repr, DecidableEq

/-- State of a `TextureManager`: `textures` (texkey → texture handle),
`keys` (name → texkey), `key_index` (texkey → name), `texkey_index`
(texkey → owning group key), the running `key_count`, `sizes`
(texkey → pixel size), `uvs` (texkey → \x5bu0, v0, u1, v1\x5d) and
`groups` (group key → member texkeys). -/
structure TextureManager where
  textures : List (Nat × Texture)
  keys : List (String × Nat)
  key_index : List (Nat × String)
  texkey_index : List (Nat × Nat)
  key_count : Nat
  sizes : List (Nat × (ℚ × ℚ))
  uvs : List (Nat × List ℚ)
  groups : List (Nat × List Nat)
  deriving Repr, DecidableEq

/-- `TextureManager.__init__()`. -/
def TextureManager.init : TextureManager :=
  { textures := []
    keys := []
    key_index := []
    texkey_index := []
    key_count := 0
    sizes := []
    uvs := []
    groups := [] }

/-- `TextureManager.load_texture(name, texture)`: `KeyError` when the
name is taken, otherwise register the texture under the next key. -/
def load_texture (tm : TextureManager) (name : String) (texture : Texture) :
    TextureManager × PyResult Nat :=
  if (dlookup tm.keys name).isSome then (tm, .keyError)
  else
    let key_count := tm.key_count
    ({ textures := dinsert tm.textures key_count texture
       sizes := dinsert tm.sizes key_count (texture.width, texture.height)
       keys := dinsert tm.keys name key_count
       key_index := dinsert tm.key_index key_count name
       texkey_index := dinsert tm.texkey_index key_count key_count
       uvs := dinsert tm.uvs key_count [0, 0, 1, 1]
       groups := dinsert tm.groups key_count [key_count]
       key_count := key_count + 1 },
     .ok key_count)

/-- `TextureManager.load_image(source)`: decode the image at `source`
(external) and register it under the basename stem of `source`; the
decoded texture and the derived name are taken as inputs here. -/
def load_image (tm : TextureManager) (name : String) (texture : Texture) :
    TextureManager × PyResult Nat :=
  if (dlookup tm.keys name).isSome then (tm, .keyError)
  else
    let key_count := tm.key_count
    ({ textures := dinsert tm.textures key_count texture
       keys := dinsert tm.keys name key_count
       sizes := dinsert tm.sizes key_count (texture.width, texture.height)
       key_index := dinsert tm.key_index key_count name
       texkey_index := dinsert tm.texkey_index key_count key_count
       uvs := dinsert tm.uvs key_count [0, 0, 1, 1]
       groups := dinsert tm.groups key_count [key_count]
       key_count := key_count + 1 },
     .ok key_count)

/-- `TextureManager.get_texkey_from_name(name)`: `self._keys[name]`. -/
def get_texkey_from_name (tm : TextureManager) (name : String) : PyResult Nat :=
  match dlookup tm.keys name with
  | none => .keyError
  | some k => .ok k

/-- `TextureManager.get_uvs(tex_key)`: `self._uvs[tex_key]`. -/
def get_uvs (tm : TextureManager) (tex_key : Nat) : PyResult (List ℚ) :=
  match dlookup tm.uvs tex_key with
  | none => .keyError
  | some u => .ok u

/-- `TextureManager.get_size(tex_key)`: `self._sizes[tex_key]`. -/
def get_size (tm : TextureManager) (tex_key : Nat) : PyResult (ℚ × ℚ) :=
  match dlookup tm.sizes tex_key with
  | none => .keyError
  | some s => .ok s

/-- The body of `unload_texture`'s loop over the group members: each
iteration reads `key_index[key]` and deletes the member's entries from
`key_index`, `uvs`, `texkey_index`, `keys` (under the member's name) and
`sizes`, in that order; every read or `del` of an absent key raises and
leaves the deletions made so far in place. -/
def unload_texture_loop : TextureManager → List Nat → TextureManager × PyResult Unit
  | tm, [] => (tm, .ok ())
  | tm, key :: rest =>
      match dlookup tm.key_index key with
      | none => (tm, .keyError)
      | some name =>
          let tm1 := { tm with key_index := derase tm.key_index key }
          if (dlookup tm1.uvs key).isSome then
            let tm2 := { tm1 with uvs := derase tm1.uvs key }
            if (dlookup tm2.texkey_index key).isSome then
              let tm3 := { tm2 with texkey_index := derase tm2.texkey_index key }
              if (dlookup tm3.keys name).isSome then
                let tm4 := { tm3 with keys := derase tm3.keys name }
                if (dlookup tm4.sizes key).isSome then
                  unload_texture_loop { tm4 with sizes := derase tm4.sizes key } rest
                else (tm4, .keyError)
              else (tm3, .keyError)
            else (tm2, .keyError)
          else (tm1, .keyError)

/-- `TextureManager.unload_texture(name)`: `KeyError` when the name is
unregistered; otherwise the name's texkey is used directly as the index
into `groups` (`KeyError` when that texkey is not a group key), the
member loop runs, and finally the `groups` and `textures` entries of
that texkey are deleted. -/
def unload_texture (tm : TextureManager) (name : String) : TextureManager × PyResult Unit :=
  match dlookup tm.keys name with
  | none => (tm, .keyError)
  | some key_index =>
      match dlookup tm.groups key_index with
      | none => (tm, .keyError)
      | some texture_keys =>
          let res := unload_texture_loop tm texture_keys
          match res.2 with
          | .keyError => (res.1, .keyError)
          | .ok _ =>
              if (dlookup res.1.groups key_index).isSome then
                let tm2 := { res.1 with groups := derase res.1.groups key_index }
                if (dlookup tm2.textures key_index).isSome then
                  ({ tm2 with textures := derase tm2.textures key_index }, .ok ())
                else (tm2, .keyError)
              else (res.1, .keyError)

/-- The inner loop of `load_atlas` over one image's `atlas_content`:
each entry gets the next `key_count` as its texkey, its name is mapped
to that key (overwriting silently — there is no duplicate check here),
`texkey_index` points at the atlas anchor key, the recorded size is the
entry's `(w, h)`, and the UV rectangle is
`[x1/w, 1 - y1/h, x2/w, 1 - y2/h]` with `x2 = x1 + kw`, `y2 = y1 + kh`;
the new key is appended in place to the anchor's group list. -/
def load_atlas_entries (w h : ℚ) (atlas_key : Nat) :
    TextureManager → List Nat → List (String × Rect) → TextureManager × PyResult Unit
  | tm, _, [] => (tm, .ok ())
  | tm, group_list, (key, r) :: rest =>
      let key_index := tm.key_count
      let x2 := r.x + r.w
      let y2 := r.y + r.h
      let group_list2 := group_list ++ [key_index]
      let tm1 : TextureManager :=
        { tm with
          keys := dinsert tm.keys key key_index
          key_index := dinsert tm.key_index key_index key
          texkey_index := dinsert tm.texkey_index key_index atlas_key
          sizes := dinsert tm.sizes key_index (r.w, r.h)
          uvs := dinsert tm.uvs key_index [r.x / w, 1 - r.y / h, x2 / w, 1 - y2 / h]
          key_count := tm.key_count + 1
          groups := dinsert tm.groups atlas_key group_list2 }
      load_atlas_entries w h atlas_key tm1 group_list2 rest

/-- The outer loop of `load_atlas` over the images of the parsed atlas
description: register each image through `load_texture` (its `KeyError`
on a duplicate image name propagates, leaving earlier images
committed), fetch the fresh anchor's group list and process the image's
sub-entries. -/
def load_atlas : TextureManager → List AtlasImage → TextureManager × PyResult Unit
  | tm, [] => (tm, .ok ())
  | tm, img :: rest =>
      let w := img.texture.width
      let h := img.texture.height
      let res := load_texture tm img.name img.texture
      match res.2 with
      | .keyError => (res.1, .keyError)
      | .ok atlas_key =>
          match dlookup res.1.groups atlas_key with
          | none => (res.1, .keyError)
          | some group_list =>
              let res2 := load_atlas_entries w h atlas_key res.1 group_list img.content
              match res2.2 with
              | .keyError => (res2.1, .keyError)
              | .ok _ => load_atlas res2.1 rest

/-- `ModelManager.load_textured_rectangle(format_name, width, height,
texture_key, name, do_copy)`: `load_model` with 4 vertices / 6 indices
runs (and commits its model) first, then the texture name is resolved
through the texture manager and the quad is written into the stored
model. -/
def load_textured_rectangle (vertex_formats : List (String × FormatConfig))
    (tm : TextureManager) (m : ModelManager) (format_name : String)
    (width height : ℚ) (texture_key name : String) (do_copy : Bool) :
    ModelManager × PyResult String :=
  let res := load_model vertex_formats m format_name 4 6 name do_copy
  match res.2 with
  | .keyError => (res.1, .keyError)
  | .ok model_name =>
      match dlookup res.1.models model_name with
      | none => (res.1, .keyError)
      | some model =>
          match get_texkey_from_name tm texture_key with
          | .keyError => (res.1, .keyError)
          | .ok texkey =>
              match get_uvs tm texkey with
              | .keyError => (res.1, .keyError)
              | .ok uvs =>
                  let ms := dinsert res.1.models model_name
                    (model.set_textured_rectangle width height uvs)
                  ({ res.1 with models := ms }, .ok model_name)

/-! ## Concrete fixtures -/

/-- A one-entry vertex-format registry (16 bytes per vertex). -/
def vfTest : List (String × FormatConfig) := [("vertex_format_4f", ⟨"vertex_format_4f", 16⟩)]

/-- A manager with the default 100 KiB allocation size after an
`allocate` call requesting 1000 vertex bytes and 500 index bytes. -/
def mmAlloc : ModelManager :=
  (allocate vfTest (ModelManager.init 102400) [("vertex_format_4f", (1000, 500))]).1

/-- `mmAlloc` after `load_model('vertex_format_4f', 4, 6, 'n')`. -/
def mmLoadedN : ModelManager :=
  (load_model vfTest mmAlloc "vertex_format_4f" 4 6 "n" false).1

/-- A manager with entities 7 and 9 registered under model `mdl`. -/
def mmReg : ModelManager :=
  register_entity_with_model
    (register_entity_with_model (ModelManager.init 102400) 7 "renderer" "mdl")
    9 "renderer" "mdl"

/-- A texture manager holding the standalone texture `"a"`. -/
def tmWithA : TextureManager := (load_texture TextureManager.init "a" ⟨64, 64⟩).1

/-- A one-image atlas: 100×100 image `"sheet"` with the sub-image
`"a"` at pixel rectangle (10, 10, 20, 20). -/
def atlasSheet : List AtlasImage := [⟨"sheet", ⟨100, 100⟩, [("a", ⟨10, 10, 20, 20⟩)]⟩]

/-- The texture manager obtained by loading `atlasSheet` into a fresh
manager: anchor key 0 for `"sheet"`, sub key 1 for `"a"`. -/
def tmAtlas : TextureManager := (load_atlas TextureManager.init atlasSheet).1

/-! ## Operation sequences over a TextureManager -/

/-- One public mutating call on the texture manager (inputs carry the
externally decoded textures / parsed atlas data). -/
inductive TexOp where
  | loadImage (name : String) (texture : Texture)
  | loadTexture (name : String) (texture : Texture)
  | loadAtlas (data : List AtlasImage)
  | unloadTexture (name : String)
  deriving Repr, DecidableEq

/-- Execute one call, keeping the state it leaves behind (also when the
call raises). -/
def runOp (tm : TextureManager) : TexOp → TextureManager
  | .loadImage n t => (load_image tm n t).1
  | .loadTexture n t => (load_texture tm n t).1
  | .loadAtlas d => (load_atlas tm d).1
  | .unloadTexture n => (unload_texture tm n).1

/-- Run a call sequence from a freshly constructed manager. -/
def runOps (ops : List TexOp) : TextureManager :=
  ops.foldl runOp TextureManager.init

/-- A texkey is assigned in a state when the key-to-name table knows it
(every registration path enters the fresh key there). -/
def Assigned (tm : TextureManager) (k : Nat) : Prop :=
  (dlookup tm.key_index k).isSome = true

instance (tm : TextureManager) (k : Nat) : Decidable (Assigned tm k) :=
  inferInstanceAs (Decidable ((dlookup tm.key_index k).isSome = true))

/-- `k` is newly assigned by running `op` in state `tm`: it is
addressable afterwards and was not before. -/
def NewKey (tm : TextureManager) (op : TexOp) (k : Nat) : Prop :=
  Assigned (runOp tm op) k ∧ ¬ Assigned tm k

instance (tm : TextureManager) (op : TexOp) (k : Nat) : Decidable (NewKey tm op k) :=
  inferInstanceAs (Decidable (_ ∧ _))

/-- Every assigned texkey lies below the running counter. -/
def KeysBounded (tm : TextureManager) : Prop :=
  ∀ k, Assigned tm k → k < tm.key_count

/-- The state after one iteration of `load_atlas`'s inner loop on entry
`(n, r)` (definitionally the loop body of `load_atlas_entries`). -/
def atlasStep (w h : ℚ) (ak : Nat) (tm : TextureManager) (gl : List Nat)
    (n : String) (r : Rect) : TextureManager :=
  { tm with
    keys := dinsert tm.keys n tm.key_count
    key_index := dinsert tm.key_index tm.key_count n
    texkey_index := dinsert tm.texkey_index tm.key_count ak
    sizes := dinsert tm.sizes tm.key_count (r.w, r.h)
    uvs := dinsert tm.uvs tm.key_count
      [r.x / w, 1 - r.y / h, (r.x + r.w) / w, 1 - (r.y + r.h) / h]
    key_count := tm.key_count + 1
    groups := dinsert tm.groups ak (gl ++ [tm.key_count]) }

/-- The state `load_texture` leaves behind on a fresh name
(definitionally the success branch of `load_texture`). -/
def texStep (tm : TextureManager) (name : String) (t : Texture) : TextureManager :=
  { textures := dinsert tm.textures tm.key_count t
    sizes := dinsert tm.sizes tm.key_count (t.width, t.height)
    keys := dinsert tm.keys name tm.key_count
    key_index := dinsert tm.key_index tm.key_count name
    texkey_index := dinsert tm.texkey_index tm.key_count tm.key_count
    uvs := dinsert tm.uvs tm.key_count [0, 0, 1, 1]
    groups := dinsert tm.groups tm.key_count [tm.key_count]
    key_count := tm.key_count + 1 }

/-- The state after one successful iteration of `unload_texture`'s
member loop on member `key` whose recorded name is `name`
(definitionally the loop body's success path). -/
def ulStep (tm : TextureManager) (key : Nat) (name : String) : TextureManager :=
  { tm with
    key_index := derase tm.key_index key
    uvs := derase tm.uvs key
    texkey_index := derase tm.texkey_index key
    keys := derase tm.keys name
    sizes := derase tm.sizes key }

/-! ## Dictionary lemmas -/

theorem dlookup_dinsert {κ α : Type} [DecidableEq κ] (l : List (κ × α)) (k k0 : κ) (v : α) :
    dlookup (dinsert l k v) k0 = if k = k0 then some v else dlookup l k0 := by
  induction l with
  | nil => simp [dinsert, dlookup]
  | cons p rest ih =>
    obtain ⟨a, b⟩ := p
    by_cases hak : a = k
    · subst hak
      by_cases h0 : a = k0 <;> simp [dinsert, dlookup, h0]
    · by_cases h0 : a = k0
      · subst h0
        have hk0 : ¬ k = a := fun h => hak h.symm
        simp [dinsert, dlookup, hak, hk0]
      · simp [dinsert, dlookup, hak, h0, ih]

theorem dlookup_derase {κ α : Type} [DecidableEq κ] (l : List (κ × α)) (k k0 : κ) :
    dlookup (derase l k) k0 = if k = k0 then none else dlookup l k0 := by
  induction l with
  | nil => simp [derase, dlookup]
  | cons p rest ih =>
    obtain ⟨a, b⟩ := p
    by_cases hak : a = k
    · subst hak
      by_cases h0 : a = k0
      · subst h0
        simp [derase, dlookup, ih]
      · simp [derase, dlookup, h0, ih]
    · by_cases h0 : a = k0
      · subst h0
        have hk0 : ¬ k = a := fun h => hak h.symm
        simp [derase, dlookup, hak, hk0]
      · simp [derase, dlookup, hak, h0, ih]

theorem dlookup_dinsert_self {κ α : Type} [DecidableEq κ] (l : List (κ × α)) (k : κ) (v : α) :
    dlookup (dinsert l k v) k = some v := by
  simp [dlookup_dinsert]

theorem dlookup_dinsert_ne {κ α : Type} [DecidableEq κ] (l : List (κ × α)) {k k0 : κ} (v : α)
    (h : k ≠ k0) : dlookup (dinsert l k v) k0 = dlookup l k0 := by
  simp [dlookup_dinsert, h]

theorem dlookup_derase_self {κ α : Type} [DecidableEq κ] (l : List (κ × α)) (k : κ) :
    dlookup (derase l k) k = none := by
  simp [dlookup_derase]

theorem dlookup_derase_ne {κ α : Type} [DecidableEq κ] (l : List (κ × α)) {k k0 : κ}
    (h : k ≠ k0) : dlookup (derase l k) k0 = dlookup l k0 := by
  simp [dlookup_derase, h]

theorem dlookup_derase_of_none {κ α : Type} [DecidableEq κ] {l : List (κ × α)} {k0 : κ}
    (k : κ) (h : dlookup l k0 = none) : dlookup (derase l k) k0 = none := by
  rw [dlookup_derase]
  split
  · rfl
  · exact h

theorem isSome_of_derase {κ α : Type} [DecidableEq κ] {l : List (κ × α)} {k k0 : κ}
    (h : (dlookup (derase l k) k0).isSome = true) : (dlookup l k0).isSome = true := by
  rw [dlookup_derase] at h
  by_cases hk : k = k0
  · simp [hk] at h
  · rwa [if_neg hk] at h

/-! ## load_atlas inner-loop lemmas -/

theorem load_atlas_entries_cons (w h : ℚ) (ak : Nat) (tm : TextureManager) (gl : List Nat)
    (n : String) (r : Rect) (rest : List (String × Rect)) :
    load_atlas_entries w h ak tm gl ((n, r) :: rest) =
      load_atlas_entries w h ak (atlasStep w h ak tm gl n r) (gl ++ [tm.key_count]) rest := rfl

theorem atlasStep_key_count (w h : ℚ) (ak : Nat) (tm : TextureManager) (gl : List Nat)
    (n : String) (r : Rect) :
    (atlasStep w h ak tm gl n r).key_count = tm.key_count + 1 := rfl

theorem atlasStep_uvs (w h : ℚ) (ak : Nat) (tm : TextureManager) (gl : List Nat)
    (n : String) (r : Rect) :
    (atlasStep w h ak tm gl n r).uvs = dinsert tm.uvs tm.key_count
      [r.x / w, 1 - r.y / h, (r.x + r.w) / w, 1 - (r.y + r.h) / h] := rfl

theorem atlasStep_sizes (w h : ℚ) (ak : Nat) (tm : TextureManager) (gl : List Nat)
    (n : String) (r : Rect) :
    (atlasStep w h ak tm gl n r).sizes = dinsert tm.sizes tm.key_count (r.w, r.h) := rfl

theorem atlasStep_keys (w h : ℚ) (ak : Nat) (tm : TextureManager) (gl : List Nat)
    (n : String) (r : Rect) :
    (atlasStep w h ak tm gl n r).keys = dinsert tm.keys n tm.key_count := rfl

theorem atlasStep_key_index (w h : ℚ) (ak : Nat) (tm : TextureManager) (gl : List Nat)
    (n : String) (r : Rect) :
    (atlasStep w h ak tm gl n r).key_index = dinsert tm.key_index tm.key_count n := rfl

theorem load_atlas_entries_ok (w h : ℚ) (ak : Nat) (entries : List (String × Rect)) :
    ∀ (tm : TextureManager) (gl : List Nat),
      (load_atlas_entries w h ak tm gl entries).2 = .ok () := by
  induction entries with
  | nil => intro tm gl; rfl
  | cons e rest ih =>
    intro tm gl
    obtain ⟨n, r⟩ := e
    rw [load_atlas_entries_cons]
    exact ih _ _

theorem load_atlas_entries_key_count (w h : ℚ) (ak : Nat) (entries : List (String × Rect)) :
    ∀ (tm : TextureManager) (gl : List Nat),
      (load_atlas_entries w h ak tm gl entries).1.key_count =
        tm.key_count + entries.length := by
  induction entries with
  | nil => intro tm gl; rfl
  | cons e rest ih =>
    intro tm gl
    obtain ⟨n, r⟩ := e
    rw [load_atlas_entries_cons, ih, atlasStep_key_count]
    simp
    omega

theorem load_atlas_entries_preserve_lt (w h : ℚ) (ak : Nat) (entries : List (String × Rect)) :
    ∀ (tm : TextureManager) (gl : List Nat) (key : Nat), key < tm.key_count →
      dlookup (load_atlas_entries w h ak tm gl entries).1.uvs key = dlookup tm.uvs key ∧
      dlookup (load_atlas_entries w h ak tm gl entries).1.sizes key = dlookup tm.sizes key := by
  induction entries with
  | nil => intro tm gl key hk; exact ⟨rfl, rfl⟩
  | cons e rest ih =>
    intro tm gl key hk
    obtain ⟨n, r⟩ := e
    rw [load_atlas_entries_cons]
    have hne : tm.key_count ≠ key := by omega
    have hrec := ih (atlasStep w h ak tm gl n r) (gl ++ [tm.key_count]) key
      (by rw [atlasStep_key_count]; omega)
    rw [hrec.1, hrec.2, atlasStep_uvs, atlasStep_sizes]
    exact ⟨dlookup_dinsert_ne _ _ hne, dlookup_dinsert_ne _ _ hne⟩

theorem load_atlas_entries_uv_size (w h : ℚ) (ak : Nat) (entries : List (String × Rect)) :
    ∀ (tm : TextureManager) (gl : List Nat) (j : Nat) (hj : j < entries.length),
      dlookup (load_atlas_entries w h ak tm gl entries).1.uvs (tm.key_count + j) =
        some [(entries.get ⟨j, hj⟩).2.x / w, 1 - (entries.get ⟨j, hj⟩).2.y / h,
              ((entries.get ⟨j, hj⟩).2.x + (entries.get ⟨j, hj⟩).2.w) / w,
              1 - ((entries.get ⟨j, hj⟩).2.y + (entries.get ⟨j, hj⟩).2.h) / h] ∧
      dlookup (load_atlas_entries w h ak tm gl entries).1.sizes (tm.key_count + j) =
        some ((entries.get ⟨j, hj⟩).2.w, (entries.get ⟨j, hj⟩).2.h) := by
  induction entries with
  | nil => intro tm gl j hj; exact absurd hj (by simp)
  | cons e rest ih =>
    intro tm gl j hj
    obtain ⟨n, r⟩ := e
    rw [load_atlas_entries_cons]
    cases j with
    | zero =>
      have hpres := load_atlas_entries_preserve_lt w h ak rest
        (atlasStep w h ak tm gl n r) (gl ++ [tm.key_count]) tm.key_count
        (by rw [atlasStep_key_count]; omega)
      rw [Nat.add_zero, hpres.1, hpres.2, atlasStep_uvs, atlasStep_sizes]
      exact ⟨dlookup_dinsert_self _ _ _, dlookup_dinsert_self _ _ _⟩
    | succ j0 =>
      have hj0 : j0 < rest.length := by simpa using Nat.lt_of_succ_lt_succ hj
      have harith : tm.key_count + (j0 + 1) = (tm.key_count + 1) + j0 := by omega
      rw [harith]
      have := ih (atlasStep w h ak tm gl n r) (gl ++ [tm.key_count]) j0 hj0
      rw [atlasStep_key_count] at this
      exact this

theorem load_atlas_entries_keys_fresh (w h : ℚ) (ak : Nat) (entries : List (String × Rect)) :
    ∀ (tm : TextureManager) (gl : List Nat) (n : String), (∀ e ∈ entries, e.1 ≠ n) →
      dlookup (load_atlas_entries w h ak tm gl entries).1.keys n = dlookup tm.keys n := by
  induction entries with
  | nil => intro tm gl n hn; rfl
  | cons e rest ih =>
    intro tm gl n hn
    obtain ⟨n0, r⟩ := e
    rw [load_atlas_entries_cons]
    have hne : n0 ≠ n := hn (n0, r) (by simp)
    rw [ih (atlasStep w h ak tm gl n0 r) (gl ++ [tm.key_count]) n
      (fun e he => hn e (by simp [he])), atlasStep_keys]
    exact dlookup_dinsert_ne _ _ hne

theorem load_atlas_entries_keys_assigned (w h : ℚ) (ak : Nat) (entries : List (String × Rect)) :
    ∀ (tm : TextureManager) (gl : List Nat) (j : Nat) (hj : j < entries.length),
      (entries.map Prod.fst).Nodup →
      dlookup (load_atlas_entries w h ak tm gl entries).1.keys (entries.get ⟨j, hj⟩).1 =
        some (tm.key_count + j) := by
  induction entries with
  | nil => intro tm gl j hj hnd; exact absurd hj (by simp)
  | cons e rest ih =>
    intro tm gl j hj hnd
    obtain ⟨n0, r⟩ := e
    rw [load_atlas_entries_cons]
    cases j with
    | zero =>
      have hfresh : ∀ e2 ∈ rest, e2.1 ≠ n0 := by
        intro e2 he2
        have hnotin : n0 ∉ rest.map Prod.fst := by simpa using (List.nodup_cons.mp hnd).1
        intro hcontra
        exact hnotin (hcontra ▸ List.mem_map_of_mem Prod.fst he2)
      rw [Nat.add_zero]
      have hk := load_atlas_entries_keys_fresh w h ak rest
        (atlasStep w h ak tm gl n0 r) (gl ++ [tm.key_count]) n0 hfresh
      simp only [List.get]
      rw [hk, atlasStep_keys]
      exact dlookup_dinsert_self _ _ _
    | succ j0 =>
      have hj0 : j0 < rest.length := by simpa using Nat.lt_of_succ_lt_succ hj
      have harith : tm.key_count + (j0 + 1) = (tm.key_count + 1) + j0 := by omega
      rw [harith]
      have := ih (atlasStep w h ak tm gl n0 r) (gl ++ [tm.key_count]) j0 hj0
        ((List.nodup_cons.mp hnd).2)
      rw [atlasStep_key_count] at this
      exact this

/-! ## load_texture and load_atlas unfolding lemmas -/

theorem load_texture_fresh (tm : TextureManager) (name : String) (t : Texture)
    (h : dlookup tm.keys name = none) :
    load_texture tm name t = (texStep tm name t, .ok tm.key_count) := by
  simp [load_texture, texStep, h]

theorem load_texture_dup (tm : TextureManager) (name : String) (t : Texture) (k : Nat)
    (h : dlookup tm.keys name = some k) :
    load_texture tm name t = (tm, .keyError) := by
  simp [load_texture, h]

theorem texStep_groups (tm : TextureManager) (name : String) (t : Texture) :
    (texStep tm name t).groups = dinsert tm.groups tm.key_count [tm.key_count] := rfl

theorem texStep_keys (tm : TextureManager) (name : String) (t : Texture) :
    (texStep tm name t).keys = dinsert tm.keys name tm.key_count := rfl

theorem texStep_key_index (tm : TextureManager) (name : String) (t : Texture) :
    (texStep tm name t).key_index = dinsert tm.key_index tm.key_count name := rfl

theorem texStep_key_count (tm : TextureManager) (name : String) (t : Texture) :
    (texStep tm name t).key_count = tm.key_count + 1 := rfl

theorem load_atlas_singleton (tm : TextureManager) (img : AtlasImage)
    (h : dlookup tm.keys img.name = none) :
    load_atlas tm [img] =
      ((load_atlas_entries img.texture.width img.texture.height tm.key_count
        (texStep tm img.name img.texture) [tm.key_count] img.content).1, .ok ()) := by
  have h1 := load_texture_fresh tm img.name img.texture h
  have hok := load_atlas_entries_ok img.texture.width img.texture.height tm.key_count
    img.content (texStep tm img.name img.texture) [tm.key_count]
  simp only [load_atlas, h1, texStep_groups, dlookup_dinsert_self, hok]

/-! ## unload_texture loop lemmas -/

theorem ulStep_key_index (tm : TextureManager) (key : Nat) (name : String) :
    (ulStep tm key name).key_index = derase tm.key_index key := rfl

theorem ulStep_uvs (tm : TextureManager) (key : Nat) (name : String) :
    (ulStep tm key name).uvs = derase tm.uvs key := rfl

theorem ulStep_texkey_index (tm : TextureManager) (key : Nat) (name : String) :
    (ulStep tm key name).texkey_index = derase tm.texkey_index key := rfl

theorem ulStep_keys (tm : TextureManager) (key : Nat) (name : String) :
    (ulStep tm key name).keys = derase tm.keys name := rfl

theorem ulStep_sizes (tm : TextureManager) (key : Nat) (name : String) :
    (ulStep tm key name).sizes = derase tm.sizes key := rfl

theorem foldl_derase_none {κ α : Type} [DecidableEq κ] (ks : List κ) :
    ∀ (l : List (κ × α)) (x : κ), dlookup l x = none →
      dlookup (ks.foldl derase l) x = none := by
  induction ks with
  | nil => intro l x h; exact h
  | cons k rest ih => intro l x h; exact ih _ _ (dlookup_derase_of_none k h)

theorem foldl_derase_isSome {κ α : Type} [DecidableEq κ] (ks : List κ) :
    ∀ (l : List (κ × α)) (x : κ),
      (dlookup (ks.foldl derase l) x).isSome = true → (dlookup l x).isSome = true := by
  induction ks with
  | nil => intro l x h; exact h
  | cons k rest ih => intro l x h; exact isSome_of_derase (ih _ _ h)

theorem unload_texture_loop_cons_ok (tm : TextureManager) (key : Nat) (rest : List Nat)
    (name : String)
    (h1 : dlookup tm.key_index key = some name)
    (h2 : (dlookup tm.uvs key).isSome = true)
    (h3 : (dlookup tm.texkey_index key).isSome = true)
    (h4 : (dlookup tm.keys name).isSome = true)
    (h5 : (dlookup tm.sizes key).isSome = true) :
    unload_texture_loop tm (key :: rest) =
      unload_texture_loop (ulStep tm key name) rest := by
  simp only [unload_texture_loop, h1, h2, h3, h4, h5, if_true]
  rfl

theorem unload_texture_loop_shape (ms : List Nat) :
    ∀ tm : TextureManager, ∃ (ka kb kc kd : List Nat) (ns : List String),
      (unload_texture_loop tm ms).1 =
        { tm with
          key_index := ka.foldl derase tm.key_index
          uvs := kb.foldl derase tm.uvs
          texkey_index := kc.foldl derase tm.texkey_index
          sizes := kd.foldl derase tm.sizes
          keys := ns.foldl derase tm.keys } := by
  induction ms with
  | nil => intro tm; exact ⟨[], [], [], [], [], rfl⟩
  | cons key rest ih =>
    intro tm
    cases hk : dlookup tm.key_index key with
    | none =>
      refine ⟨[], [], [], [], [], ?_⟩
      simp only [unload_texture_loop, hk]
      rfl
    | some name =>
      cases h2 : (dlookup tm.uvs key).isSome with
      | false =>
        refine ⟨[key], [], [], [], [], ?_⟩
        simp only [unload_texture_loop, hk, h2]
        rfl
      | true =>
        cases h3 : (dlookup tm.texkey_index key).isSome with
        | false =>
          refine ⟨[key], [key], [], [], [], ?_⟩
          simp only [unload_texture_loop, hk, h2, h3]
          rfl
        | true =>
          cases h4 : (dlookup tm.keys name).isSome with
          | false =>
            refine ⟨[key], [key], [key], [], [], ?_⟩
            simp only [unload_texture_loop, hk, h2, h3, h4]
            rfl
          | true =>
            cases h5 : (dlookup tm.sizes key).isSome with
            | false =>
              refine ⟨[key], [key], [key], [], [name], ?_⟩
              simp only [unload_texture_loop, hk, h2, h3, h4, h5]
              rfl
            | true =>
              obtain ⟨ka, kb, kc, kd, ns, heq⟩ := ih (ulStep tm key name)
              refine ⟨key :: ka, key :: kb, key :: kc, key :: kd, name :: ns, ?_⟩
              rw [unload_texture_loop_cons_ok tm key rest name hk h2 h3 h4 h5, heq]
              rfl

theorem unload_texture_loop_fixed (ms : List Nat) (tm : TextureManager) :
    (unload_texture_loop tm ms).1.groups = tm.groups ∧
    (unload_texture_loop tm ms).1.textures = tm.textures ∧
    (unload_texture_loop tm ms).1.key_count = tm.key_count := by
  obtain ⟨ka, kb, kc, kd, ns, h⟩ := unload_texture_loop_shape ms tm
  rw [h]
  exact ⟨rfl, rfl, rfl⟩

theorem unload_texture_loop_clears (f : Nat → String) (ms : List Nat) :
    ∀ tm : TextureManager,
      ms.Nodup → (ms.map f).Nodup →
      (∀ x ∈ ms, dlookup tm.key_index x = some (f x)) →
      (∀ x ∈ ms, (dlookup tm.uvs x).isSome = true) →
      (∀ x ∈ ms, (dlookup tm.texkey_index x).isSome = true) →
      (∀ x ∈ ms, (dlookup tm.keys (f x)).isSome = true) →
      (∀ x ∈ ms, (dlookup tm.sizes x).isSome = true) →
      (unload_texture_loop tm ms).2 = .ok () ∧
      (∀ x ∈ ms,
        dlookup (unload_texture_loop tm ms).1.key_index x = none ∧
        dlookup (unload_texture_loop tm ms).1.uvs x = none ∧
        dlookup (unload_texture_loop tm ms).1.texkey_index x = none ∧
        dlookup (unload_texture_loop tm ms).1.sizes x = none ∧
        dlookup (unload_texture_loop tm ms).1.keys (f x) = none) := by
  induction ms with
  | nil =>
    intro tm _ _ _ _ _ _ _
    exact ⟨rfl, by intro x hx; cases hx⟩
  | cons key rest ih =>
    intro tm hnd hmnd hki huv htk hks hsz
    have hk : dlookup tm.key_index key = some (f key) := hki key (by simp)
    rw [unload_texture_loop_cons_ok tm key rest (f key) hk (huv key (by simp))
      (htk key (by simp)) (hks key (by simp)) (hsz key (by simp))]
    have hkey_notin : key ∉ rest := (List.nodup_cons.mp hnd).1
    have hname_notin : f key ∉ rest.map f := by simpa using (List.nodup_cons.mp hmnd).1
    have hstep1 : ∀ x ∈ rest, dlookup (ulStep tm key (f key)).key_index x = some (f x) := by
      intro x hx
      have hxk : key ≠ x := fun h => hkey_notin (h ▸ hx)
      rw [ulStep_key_index, dlookup_derase_ne _ hxk]
      exact hki x (by simp [hx])
    have hstep2 : ∀ x ∈ rest, (dlookup (ulStep tm key (f key)).uvs x).isSome = true := by
      intro x hx
      have hxk : key ≠ x := fun h => hkey_notin (h ▸ hx)
      rw [ulStep_uvs, dlookup_derase_ne _ hxk]
      exact huv x (by simp [hx])
    have hstep3 : ∀ x ∈ rest,
        (dlookup (ulStep tm key (f key)).texkey_index x).isSome = true := by
      intro x hx
      have hxk : key ≠ x := fun h => hkey_notin (h ▸ hx)
      rw [ulStep_texkey_index, dlookup_derase_ne _ hxk]
      exact htk x (by simp [hx])
    have hstep4 : ∀ x ∈ rest, (dlookup (ulStep tm key (f key)).keys (f x)).isSome = true := by
      intro x hx
      have hfx : f key ≠ f x := by
        intro hcontra
        exact hname_notin (hcontra ▸ List.mem_map_of_mem f hx)
      rw [ulStep_keys, dlookup_derase_ne _ hfx]
      exact hks x (by simp [hx])
    have hstep5 : ∀ x ∈ rest, (dlookup (ulStep tm key (f key)).sizes x).isSome = true := by
      intro x hx
      have hxk : key ≠ x := fun h => hkey_notin (h ▸ hx)
      rw [ulStep_sizes, dlookup_derase_ne _ hxk]
      exact hsz x (by simp [hx])
    obtain ⟨hok, hclear⟩ := ih (ulStep tm key (f key)) (List.nodup_cons.mp hnd).2
      (by simpa using (List.nodup_cons.mp hmnd).2) hstep1 hstep2 hstep3 hstep4 hstep5
    refine ⟨hok, ?_⟩
    intro x hx
    rcases List.mem_cons.mp hx with hx0 | hxr
    · subst hx0
      obtain ⟨ka, kb, kc, kd, ns, hshape⟩ :=
        unload_texture_loop_shape rest (ulStep tm x (f x))
      rw [hshape]
      refine ⟨?_, ?_, ?_, ?_, ?_⟩
      · exact foldl_derase_none ka _ _ (dlookup_derase_self _ _)
      · exact foldl_derase_none kb _ _ (dlookup_derase_self _ _)
      · exact foldl_derase_none kc _ _ (dlookup_derase_self _ _)
      · exact foldl_derase_none kd _ _ (dlookup_derase_self _ _)
      · exact foldl_derase_none ns _ _ (dlookup_derase_self _ _)
    · exact hclear x hxr

/-! ## Texkey-counter invariants -/

theorem load_image_eq_load_texture (tm : TextureManager) (n : String) (t : Texture) :
    load_image tm n t = load_texture tm n t := rfl

theorem load_texture_key_count (tm : TextureManager) (n : String) (t : Texture) :
    tm.key_count ≤ (load_texture tm n t).1.key_count := by
  cases hd : dlookup tm.keys n with
  | some k0 =>
    rw [load_texture_dup tm n t k0 hd]
  | none =>
    rw [load_texture_fresh tm n t hd, texStep_key_count]
    omega

theorem load_texture_assigned (tm : TextureManager) (n : String) (t : Texture) (k : Nat) :
    Assigned (load_texture tm n t).1 k →
      Assigned tm k ∨ (tm.key_count ≤ k ∧ k < (load_texture tm n t).1.key_count) := by
  intro hk
  cases hd : dlookup tm.keys n with
  | some k0 =>
    rw [load_texture_dup tm n t k0 hd] at hk
    exact Or.inl hk
  | none =>
    rw [load_texture_fresh tm n t hd] at hk ⊢
    rw [Assigned, texStep_key_index] at hk
    by_cases hek : tm.key_count = k
    · exact Or.inr ⟨Nat.le_of_eq hek, by rw [texStep_key_count]; omega⟩
    · rw [dlookup_dinsert_ne _ _ hek] at hk
      exact Or.inl hk

theorem load_atlas_entries_assigned (w h : ℚ) (ak : Nat) (es : List (String × Rect)) :
    ∀ (tm : TextureManager) (gl : List Nat) (k : Nat),
      Assigned (load_atlas_entries w h ak tm gl es).1 k →
      Assigned tm k ∨
        (tm.key_count ≤ k ∧ k < (load_atlas_entries w h ak tm gl es).1.key_count) := by
  induction es with
  | nil => intro tm gl k hk; exact Or.inl hk
  | cons e rest ih =>
    intro tm gl k hk
    obtain ⟨n, r⟩ := e
    rw [load_atlas_entries_cons] at hk ⊢
    have hkc := load_atlas_entries_key_count w h ak rest
      (atlasStep w h ak tm gl n r) (gl ++ [tm.key_count])
    rcases ih (atlasStep w h ak tm gl n r) (gl ++ [tm.key_count]) k hk with ha | ⟨h1, h2⟩
    · rw [Assigned, atlasStep_key_index] at ha
      by_cases hek : tm.key_count = k
      · refine Or.inr ⟨Nat.le_of_eq hek, ?_⟩
        rw [hkc, atlasStep_key_count]
        omega
      · rw [dlookup_dinsert_ne _ _ hek] at ha
        exact Or.inl ha
    · rw [atlasStep_key_count] at h1
      exact Or.inr ⟨by omega, h2⟩

theorem load_atlas_cons_fresh (tm : TextureManager) (img : AtlasImage)
    (rest : List AtlasImage) (h : dlookup tm.keys img.name = none) :
    load_atlas tm (img :: rest) =
      load_atlas (load_atlas_entries img.texture.width img.texture.height tm.key_count
        (texStep tm img.name img.texture) [tm.key_count] img.content).1 rest := by
  have h1 := load_texture_fresh tm img.name img.texture h
  have hok := load_atlas_entries_ok img.texture.width img.texture.height tm.key_count
    img.content (texStep tm img.name img.texture) [tm.key_count]
  simp only [load_atlas, h1, texStep_groups, dlookup_dinsert_self, hok]

theorem load_atlas_cons_dup (tm : TextureManager) (img : AtlasImage)
    (rest : List AtlasImage) (k : Nat) (h : dlookup tm.keys img.name = some k) :
    load_atlas tm (img :: rest) = (tm, .keyError) := by
  simp only [load_atlas, load_texture_dup tm img.name img.texture k h]

theorem load_atlas_key_count (data : List AtlasImage) :
    ∀ tm : TextureManager, tm.key_count ≤ (load_atlas tm data).1.key_count := by
  induction data with
  | nil => intro tm; exact Nat.le_refl _
  | cons img rest ih =>
    intro tm
    cases hdup : dlookup tm.keys img.name with
    | some k => rw [load_atlas_cons_dup tm img rest k hdup]
    | none =>
      rw [load_atlas_cons_fresh tm img rest hdup]
      have h1 := ih (load_atlas_entries img.texture.width img.texture.height tm.key_count
        (texStep tm img.name img.texture) [tm.key_count] img.content).1
      have h2 := load_atlas_entries_key_count img.texture.width img.texture.height
        tm.key_count img.content (texStep tm img.name img.texture) [tm.key_count]
      rw [texStep_key_count] at h2
      omega

theorem load_atlas_assigned (data : List AtlasImage) :
    ∀ (tm : TextureManager) (k : Nat),
      Assigned (load_atlas tm data).1 k →
      Assigned tm k ∨ (tm.key_count ≤ k ∧ k < (load_atlas tm data).1.key_count) := by
  induction data with
  | nil => intro tm k hk; exact Or.inl hk
  | cons img rest ih =>
    intro tm k hk
    cases hdup : dlookup tm.keys img.name with
    | some k2 =>
      rw [load_atlas_cons_dup tm img rest k2 hdup] at hk
      exact Or.inl hk
    | none =>
      rw [load_atlas_cons_fresh tm img rest hdup] at hk ⊢
      have hE2 := load_atlas_entries_key_count img.texture.width img.texture.height
        tm.key_count img.content (texStep tm img.name img.texture) [tm.key_count]
      rw [texStep_key_count] at hE2
      have hF := load_atlas_key_count rest (load_atlas_entries img.texture.width
        img.texture.height tm.key_count (texStep tm img.name img.texture)
        [tm.key_count] img.content).1
      rcases ih _ k hk with ha | ⟨h1, h2⟩
      · rcases load_atlas_entries_assigned img.texture.width img.texture.height
          tm.key_count img.content (texStep tm img.name img.texture) [tm.key_count] k ha
          with hb | ⟨h3, h4⟩
        · rcases load_texture_assigned tm img.name img.texture k
            (by rw [load_texture_fresh tm img.name img.texture hdup]; exact hb) with hc | ⟨h5, h6⟩
          · exact Or.inl hc
          · rw [load_texture_fresh tm img.name img.texture hdup, texStep_key_count] at h6
            refine Or.inr ⟨h5, by omega⟩
        · rw [texStep_key_count] at h3
          exact Or.inr ⟨by omega, by omega⟩
      · exact Or.inr ⟨by omega, h2⟩

theorem unload_texture_result_shape (tm : TextureManager) (n : String) :
    ∃ ka : List Nat,
      (unload_texture tm n).1.key_index = ka.foldl derase tm.key_index ∧
      (unload_texture tm n).1.key_count = tm.key_count := by
  cases hk : dlookup tm.keys n with
  | none =>
    have hE : unload_texture tm n = (tm, .keyError) := by simp only [unload_texture, hk]
    exact ⟨[], by rw [hE]; rfl, by rw [hE]⟩
  | some k =>
    cases hg : dlookup tm.groups k with
    | none =>
      have hE : unload_texture tm n = (tm, .keyError) := by simp only [unload_texture, hk, hg]
      exact ⟨[], by rw [hE]; rfl, by rw [hE]⟩
    | some ms =>
      obtain ⟨ka, kb, kc, kd, ns, hshape⟩ := unload_texture_loop_shape ms tm
      refine ⟨ka, ?_⟩
      cases hr : (unload_texture_loop tm ms).2 with
      | keyError =>
        have hE : unload_texture tm n = ((unload_texture_loop tm ms).1, .keyError) := by
          simp only [unload_texture, hk, hg, hr]
        rw [hE, hshape]
        exact ⟨rfl, rfl⟩
      | ok u =>
        simp only [unload_texture, hk, hg, hr]
        split
        · split
          · rw [hshape]
            exact ⟨rfl, rfl⟩
          · rw [hshape]
            exact ⟨rfl, rfl⟩
        · rw [hshape]
          exact ⟨rfl, rfl⟩

theorem unload_texture_assigned (tm : TextureManager) (n : String) (k : Nat) :
    Assigned (unload_texture tm n).1 k → Assigned tm k := by
  intro hk
  obtain ⟨ka, h1, _⟩ := unload_texture_result_shape tm n
  rw [Assigned, h1] at hk
  exact foldl_derase_isSome ka _ _ hk

theorem runOp_key_count (tm : TextureManager) (op : TexOp) :
    tm.key_count ≤ (runOp tm op).key_count := by
  cases op with
  | loadImage n t =>
    rw [runOp, load_image_eq_load_texture]
    exact load_texture_key_count tm n t
  | loadTexture n t => exact load_texture_key_count tm n t
  | loadAtlas d => exact load_atlas_key_count d tm
  | unloadTexture n => exact Nat.le_of_eq (unload_texture_result_shape tm n).choose_spec.2.symm

theorem runOp_assigned (tm : TextureManager) (op : TexOp) (k : Nat) :
    Assigned (runOp tm op) k →
      Assigned tm k ∨ (tm.key_count ≤ k ∧ k < (runOp tm op).key_count) := by
  cases op with
  | loadImage n t =>
    rw [runOp, load_image_eq_load_texture]
    exact load_texture_assigned tm n t k
  | loadTexture n t => exact load_texture_assigned tm n t k
  | loadAtlas d => exact load_atlas_assigned d tm k
  | unloadTexture n => exact fun h => Or.inl (unload_texture_assigned tm n k h)

theorem keysBounded_runOp (tm : TextureManager) (op : TexOp) (h : KeysBounded tm) :
    KeysBounded (runOp tm op) := by
  intro k hk
  rcases runOp_assigned tm op k hk with ha | ⟨_, h2⟩
  · exact Nat.lt_of_lt_of_le (h k ha) (runOp_key_count tm op)
  · exact h2

theorem keysBounded_init : KeysBounded TextureManager.init := by
  intro k hk
  rw [Assigned] at hk
  simp [TextureManager.init, dlookup] at hk

theorem keysBounded_foldl (ops : List TexOp) :
    ∀ tm : TextureManager, KeysBounded tm → KeysBounded (ops.foldl runOp tm) := by
  induction ops with
  | nil => intro tm h; exact h
  | cons op rest ih => intro tm h; exact ih _ (keysBounded_runOp tm op h)

theorem foldl_key_count (ops : List TexOp) :
    ∀ tm : TextureManager, tm.key_count ≤ (ops.foldl runOp tm).key_count := by
  induction ops with
  | nil => intro tm; exact Nat.le_refl _
  | cons op rest ih =>
    intro tm
    exact Nat.le_trans (runOp_key_count tm op) (ih (runOp tm op))

theorem keysBounded_runOps (ops : List TexOp) : KeysBounded (runOps ops) :=
  keysBounded_foldl ops TextureManager.init keysBounded_init

/-! ## Claim theorems -/

/-- Claim C8: along any sequence of `load_image` / `load_texture` /
`load_atlas` / `unload_texture` calls started on a fresh manager, the
texkeys are non-negative (they live in `ℕ`) and strictly increase
across registrations: a key newly assigned by a later call is strictly
greater than any key newly assigned by an earlier call, however many
loads and unloads lie between them.  In particular a key removed by
`unload_texture` is never handed out again, because the counter is
never decremented or recycled. -/
theorem texkeys_strictly_increase (ops1 ops2 : List TexOp) (op1 op2 : TexOp) (k1 k2 : Nat)
    (h1 : NewKey (runOps ops1) op1 k1)
    (h2 : NewKey (runOps (ops1 ++ op1 :: ops2)) op2 k2) :
    k1 < k2 := by
  have hb : KeysBounded (runOp (runOps ops1) op1) :=
    keysBounded_runOp _ _ (keysBounded_runOps ops1)
  have hk1 : k1 < (runOp (runOps ops1) op1).key_count := hb k1 h1.1
  have heq : runOps (ops1 ++ op1 :: ops2) =
      List.foldl runOp (runOp (runOps ops1) op1) ops2 := by
    rw [runOps, runOps, List.foldl_append, List.foldl_cons]
  have hmono : (runOp (runOps ops1) op1).key_count ≤
      (runOps (ops1 ++ op1 :: ops2)).key_count := by
    rw [heq]
    exact foldl_key_count ops2 _
  have hk2 : (runOps (ops1 ++ op1 :: ops2)).key_count ≤ k2 := by
    rcases runOp_assigned _ op2 k2 h2.1 with ha | ⟨hle, _⟩
    · exact absurd ha h2.2
    · exact hle
  omega

/-- Witness for C8: loading `"a"` then `"b"` on a fresh manager assigns
key 0 then key 1, with 0 < 1. -/
theorem texkeys_strictly_increase_witness :
    NewKey (runOps []) (TexOp.loadTexture "a" ⟨4, 4⟩) 0 ∧
    NewKey (runOps ([] ++ TexOp.loadTexture "a" ⟨4, 4⟩ :: []))
      (TexOp.loadTexture "b" ⟨4, 4⟩) 1 ∧
    (0 : Nat) < 1 :=
  ⟨by decide, by decide,
   texkeys_strictly_increase [] [] (TexOp.loadTexture "a" ⟨4, 4⟩)
     (TexOp.loadTexture "b" ⟨4, 4⟩) 0 1 (by decide) (by decide)⟩

/-- Claim C1: the spec says two `load_model(..., "n", copy=true)` calls
return `"n_0"` then `"n_1"`.  The code contradicts its own docstring
(`'test_model' becomes 'test_model_0', and then 'test_model_1'`): the
first call stores the model under the plain name `"n"`, and the second
call rebinds `name` to `"n_0"` before executing
`self._key_counts[name] += 1`, which raises `KeyError` because the
derived name `"n_0"` was never entered into `key_counts`. -/
theorem load_model_copy_true_bug :
    (load_model vfTest mmAlloc "vertex_format_4f" 4 6 "n" true).2 = .ok "n" ∧
    load_model vfTest (load_model vfTest mmAlloc "vertex_format_4f" 4 6 "n" true).1
        "vertex_format_4f" 4 6 "n" true =
      ((load_model vfTest mmAlloc "vertex_format_4f" 4 6 "n" true).1, .keyError) := by
  decide

/-- Claim C2: the spec says the vertex and index pools for a format are
sized exactly as the requested `(vertex bytes, index bytes)` pair and
that the returned total equals the bytes actually reserved.  The code
constructs both pools as `MemoryBlock(allocation_size // 2, 1, 1)`
regardless of the request: asking for `(1000, 500)` with a 102400-byte
allocation size reserves two 51200-byte pools (102400 bytes in all)
while returning 1500 — contradicting the method's own docstring and its
log message, which claim the requested sizes are reserved. -/
theorem allocate_fixed_pool_bug :
    (allocate vfTest (ModelManager.init 102400) [("vertex_format_4f", (1000, 500))]).2 =
      .ok 1500 ∧
    dlookup mmAlloc.memory_blocks "vertex_format_4f" =
      some (⟨51200, 1, 1⟩, ⟨51200, 1, 1⟩) ∧
    reservedBytes mmAlloc = 102400 := by
  decide

/-- Claim C5: once `name` has been seen (it is in `key_counts`, as any
successful prior `load_model` of that name guarantees), a further
`load_model` call with `do_copy=false` returns the very same state and
the original name: the models table is untouched and no second model is
created. -/
theorem load_model_no_copy_idempotent (vertex_formats : List (String × FormatConfig))
    (m : ModelManager) (format_name : String) (format_config : FormatConfig)
    (vertex_count index_count : Nat) (name : String) (cnt : Nat)
    (hf : dlookup vertex_formats format_name = some format_config)
    (hn : dlookup m.key_counts name = some cnt) :
    load_model vertex_formats m format_name vertex_count index_count name false =
      (m, .ok name) := by
  simp [load_model, hf, hn]

/-- Witness for C5 at a concrete manager: after loading `"n"` once,
reloading it without copy returns `"n"` and leaves the state equal. -/
theorem load_model_no_copy_idempotent_witness :
    dlookup vfTest "vertex_format_4f" = some ⟨"vertex_format_4f", 16⟩ ∧
    dlookup mmLoadedN.key_counts "n" = some 0 ∧
    load_model vfTest mmLoadedN "vertex_format_4f" 4 6 "n" false = (mmLoadedN, .ok "n") :=
  ⟨by decide, by decide,
   load_model_no_copy_idempotent vfTest mmLoadedN "vertex_format_4f"
     ⟨"vertex_format_4f", 16⟩ 4 6 "n" 0 (by decide) (by decide)⟩

/-- Claim C6: the spec says `copy_model("n")` returns a fresh
independent copy of the loaded model `"n"`.  In the code, `copy_model`
forwards to `load_model` with `do_copy=True`, which rebinds the name to
`"n_0"` and then raises `KeyError` on `self._key_counts["n_0"] += 1`
(the derived name is not a `key_counts` key), so copying any
once-loaded model crashes before any data is copied — contradicting
`copy_model`'s docstring.  The first conjunct shows `"n"` really is
loaded, so the failure is not the documented missing-source error. -/
theorem copy_model_keyerror_bug :
    dlookup mmLoadedN.models "n" =
      some ⟨4, 6, ⟨"vertex_format_4f", 16⟩, "n", none⟩ ∧
    copy_model vfTest mmLoadedN "n" none = (mmLoadedN, .keyError) := by
  decide

/-- Claim C4: for an atlas entry with pixel rectangle `(x, y, w, h)`
inside a parent image of pixel size `(W, H)`, loading the atlas records
the sub-texture's size as `(w, h)`, and `get_uvs` on its texkey (the
`j`-th entry of the image receives key `key_count + 1 + j`) returns
exactly `[x/W, 1 - y/H, (x+w)/W, 1 - (y+h)/H]` — the conversion from
top-left-origin atlas pixels to bottom-left-origin UV space.  Pixel
arithmetic is modelled over `ℚ`; the positivity hypotheses record that
the modelling only claims to mirror Python float division on non-empty
images. -/
theorem load_atlas_subtexture_uvs (tm : TextureManager) (img : AtlasImage)
    (j : Nat) (hj : j < img.content.length)
    (hfresh : dlookup tm.keys img.name = none)
    (_hW : 0 < img.texture.width) (_hH : 0 < img.texture.height) :
    get_size (load_atlas tm [img]).1 (tm.key_count + 1 + j) =
      .ok ((img.content.get ⟨j, hj⟩).2.w, (img.content.get ⟨j, hj⟩).2.h) ∧
    get_uvs (load_atlas tm [img]).1 (tm.key_count + 1 + j) =
      .ok [(img.content.get ⟨j, hj⟩).2.x / img.texture.width,
           1 - (img.content.get ⟨j, hj⟩).2.y / img.texture.height,
           ((img.content.get ⟨j, hj⟩).2.x + (img.content.get ⟨j, hj⟩).2.w) /
             img.texture.width,
           1 - ((img.content.get ⟨j, hj⟩).2.y + (img.content.get ⟨j, hj⟩).2.h) /
             img.texture.height] := by
  rw [load_atlas_singleton tm img hfresh]
  have hmain := load_atlas_entries_uv_size img.texture.width img.texture.height
    tm.key_count img.content (texStep tm img.name img.texture) [tm.key_count] j hj
  rw [texStep_key_count] at hmain
  exact ⟨by simp only [get_size, hmain.2], by simp only [get_uvs, hmain.1]⟩

/-- Witness for C4: the spec's own example — a 100×100 image `"sheet"`
with sub-image `"a"` at rectangle (10, 10, 20, 20) yields recorded size
(20, 20) and UVs `[0.1, 0.9, 0.3, 0.7]` for texkey 1. -/
theorem load_atlas_subtexture_uvs_witness :
    dlookup TextureManager.init.keys "sheet" = none ∧
    (0 : ℚ) < 100 ∧
    get_size (load_atlas TextureManager.init atlasSheet).1 1 = .ok (20, 20) ∧
    get_uvs (load_atlas TextureManager.init atlasSheet).1 1 =
      .ok [1/10, 9/10, 3/10, 7/10] := by
  have h := load_atlas_subtexture_uvs TextureManager.init
    ⟨"sheet", ⟨100, 100⟩, [("a", ⟨10, 10, 20, 20⟩)]⟩ 0 (by decide) (by decide)
    (by decide) (by decide)
  refine ⟨by decide, by decide, ?_, ?_⟩
  · exact h.1
  · have h2 := h.2
    norm_num at h2
    exact h2

/-- Counterexample to claim C3: `"a"` is a registered sub-texture name
(texkey 1) inside the atlas group anchored by `"sheet"` (group key 0),
yet `unload_texture "a"` raises `KeyError` and removes nothing: the
code indexes `self._groups` with the sub-texture's own texkey instead
of resolving it to the group key through `_texkey_index`. -/
theorem unload_texture_subname_keyerror :
    dlookup tmAtlas.keys "a" = some 1 ∧
    unload_texture tmAtlas "a" = (tmAtlas, .keyError) :=
  ⟨rfl, rfl⟩

/-- Claim C3 amended: `unload_texture(name)` on an unregistered name
raises `KeyError`; on a registered name whose texkey is itself a group
key (an atlas anchor or a standalone texture) it removes every member
of the group from the key-to-name, UV, group-owner, size and
name-to-key tables and deletes the group and texture entries, so
`get_texkey_from_name` fails on every former member's name; but on a
registered sub-texture name (whose texkey is not a group key) the
lookup `self._groups[texkey]` raises `KeyError` and nothing is removed.
`f` names the recorded key-to-name entry of each member, and the
side conditions state the group's internal consistency (distinct member
keys and names, every member present in every per-key table). -/
theorem unload_texture_spec (tm : TextureManager) (name : String) (f : Nat → String) :
    (dlookup tm.keys name = none → unload_texture tm name = (tm, .keyError)) ∧
    (∀ k, dlookup tm.keys name = some k → dlookup tm.groups k = none →
      unload_texture tm name = (tm, .keyError)) ∧
    (∀ k members, dlookup tm.keys name = some k → dlookup tm.groups k = some members →
      members.Nodup → (members.map f).Nodup →
      (∀ x ∈ members, dlookup tm.key_index x = some (f x)) →
      (∀ x ∈ members, (dlookup tm.uvs x).isSome = true) →
      (∀ x ∈ members, (dlookup tm.texkey_index x).isSome = true) →
      (∀ x ∈ members, (dlookup tm.keys (f x)).isSome = true) →
      (∀ x ∈ members, (dlookup tm.sizes x).isSome = true) →
      (dlookup tm.textures k).isSome = true →
      (unload_texture tm name).2 = .ok () ∧
      (∀ x ∈ members,
        dlookup (unload_texture tm name).1.key_index x = none ∧
        dlookup (unload_texture tm name).1.uvs x = none ∧
        dlookup (unload_texture tm name).1.texkey_index x = none ∧
        dlookup (unload_texture tm name).1.sizes x = none ∧
        dlookup (unload_texture tm name).1.keys (f x) = none ∧
        get_texkey_from_name (unload_texture tm name).1 (f x) = .keyError) ∧
      dlookup (unload_texture tm name).1.groups k = none ∧
      dlookup (unload_texture tm name).1.textures k = none) := by
  refine ⟨fun h => ?_, fun k h1 h2 => ?_, fun k members h1 h2 hnd hmnd hki huv htk hks hsz htx => ?_⟩
  · simp only [unload_texture, h]
  · simp only [unload_texture, h1, h2]
  · obtain ⟨hok, hclear⟩ := unload_texture_loop_clears f members tm hnd hmnd hki huv htk hks hsz
    obtain ⟨hg, ht2, _⟩ := unload_texture_loop_fixed members tm
    have hgs : (dlookup (unload_texture_loop tm members).1.groups k).isSome = true := by
      rw [hg, h2]; rfl
    have hts : (dlookup (unload_texture_loop tm members).1.textures k).isSome = true := by
      rw [ht2]; exact htx
    have hE : unload_texture tm name =
        ({ (unload_texture_loop tm members).1 with
            groups := derase (unload_texture_loop tm members).1.groups k
            textures := derase (unload_texture_loop tm members).1.textures k }, .ok ()) := by
      simp only [unload_texture, h1, h2, hok, hgs, hts, if_true]
    rw [hE]
    refine ⟨rfl, ?_, dlookup_derase_self _ _, dlookup_derase_self _ _⟩
    intro x hx
    obtain ⟨c1, c2, c3, c4, c5⟩ := hclear x hx
    exact ⟨c1, c2, c3, c4, c5, by simp only [get_texkey_from_name, c5]⟩

/-- Witness for C3's amended claim: unloading the anchor `"sheet"` of
the loaded one-image atlas succeeds and clears both group members,
after which the sub-texture name `"a"` no longer resolves. -/
theorem unload_texture_spec_witness :
    dlookup tmAtlas.keys "sheet" = some 0 ∧
    dlookup tmAtlas.groups 0 = some [0, 1] ∧
    ((unload_texture tmAtlas "sheet").2 = .ok () ∧
      dlookup (unload_texture tmAtlas "sheet").1.keys "a" = none ∧
      get_texkey_from_name (unload_texture tmAtlas "sheet").1 "a" = .keyError ∧
      dlookup (unload_texture tmAtlas "sheet").1.groups 0 = none) := by
  have h := (unload_texture_spec tmAtlas "sheet"
      (fun x => if x = 0 then "sheet" else "a")).2.2
    0 [0, 1] (by decide) (by decide) (by decide) (by decide) (by decide) (by decide)
    (by decide) (by decide) (by decide) (by decide)
  refine ⟨by decide, by decide, h.1, ?_, ?_, h.2.2.1⟩
  · exact (h.2.1 1 (by decide)).2.2.2.2.1
  · exact (h.2.1 1 (by decide)).2.2.2.2.2

/-- Counterexample to claim C7: with a texture `"a"` already registered
(texkey 0), loading an atlas whose image `"sheet"` holds a sub-image
also named `"a"` does not fail with a duplicate-name error — the call
succeeds and silently overwrites the name-to-key entry of `"a"` with
the fresh sub-texture key 2. -/
theorem load_atlas_subname_collision_silent :
    dlookup tmWithA.keys "a" = some 0 ∧
    (load_atlas tmWithA [⟨"sheet", ⟨100, 100⟩, [("a", ⟨0, 0, 10, 10⟩)]⟩]).2 = .ok () ∧
    dlookup (load_atlas tmWithA
      [⟨"sheet", ⟨100, 100⟩, [("a", ⟨0, 0, 10, 10⟩)]⟩]).1.keys "a" = some 2 := by
  decide

/-- Claim C7 amended: `load_atlas` fails with a duplicate-name error
only when the parent image's derived name collides (via `load_texture`);
a derived sub-image name is entered with `self._keys[key] = key_index`
without any check, so a collision with an existing name silently
overwrites that name-to-key entry: after a successful load every entry
name maps to its fresh key `key_count + 1 + j`, whether or not the name
was present before. -/
theorem load_atlas_duplicate_name_handling (tm : TextureManager) (img : AtlasImage) :
    (∀ k, dlookup tm.keys img.name = some k → load_atlas tm [img] = (tm, .keyError)) ∧
    (dlookup tm.keys img.name = none → (img.content.map Prod.fst).Nodup →
      (load_atlas tm [img]).2 = .ok () ∧
      ∀ j (hj : j < img.content.length),
        dlookup (load_atlas tm [img]).1.keys (img.content.get ⟨j, hj⟩).1 =
          some (tm.key_count + 1 + j)) := by
  constructor
  · intro k hk
    simp only [load_atlas, load_texture_dup tm img.name img.texture k hk]
  · intro hfresh hnd
    rw [load_atlas_singleton tm img hfresh]
    refine ⟨rfl, ?_⟩
    intro j hj
    have hkeys := load_atlas_entries_keys_assigned img.texture.width img.texture.height
      tm.key_count img.content (texStep tm img.name img.texture) [tm.key_count] j hj hnd
    rw [texStep_key_count] at hkeys
    exact hkeys

/-- Witness for C7's amended claim: loading `"sheet"` with sub-image
`"a"` over a manager already holding a texture named `"a"` succeeds and
maps `"a"` to the fresh key `key_count + 1`. -/
theorem load_atlas_duplicate_name_handling_witness :
    dlookup tmWithA.keys "sheet" = none ∧
    (([("a", Rect.mk 0 0 10 10)]).map Prod.fst).Nodup ∧
    ((load_atlas tmWithA [⟨"sheet", ⟨100, 100⟩, [("a", ⟨0, 0, 10, 10⟩)]⟩]).2 = .ok () ∧
      dlookup (load_atlas tmWithA
        [⟨"sheet", ⟨100, 100⟩, [("a", ⟨0, 0, 10, 10⟩)]⟩]).1.keys "a" =
        some (tmWithA.key_count + 1 + 0)) := by
  have h := (load_atlas_duplicate_name_handling tmWithA
    ⟨"sheet", ⟨100, 100⟩, [("a", ⟨0, 0, 10, 10⟩)]⟩).2 (by decide) (by decide)
  exact ⟨by decide, by decide, h.1, h.2 0 (by decide)⟩

/-- Claim C9: `unregister_entity_with_model` raises `KeyError` when the
model name is unknown or when the entity id is not registered under it,
and when the pair is present it removes exactly that entry: the call
succeeds, the erased bucket no longer holds `entity_id`, and every
other entity id keeps its registration. -/
theorem unregister_entity_spec (m : ModelManager) (entity_id : Nat) (model_name : String) :
    (dlookup m.model_register model_name = none →
      unregister_entity_with_model m entity_id model_name = (m, .keyError)) ∧
    (∀ inner, dlookup m.model_register model_name = some inner →
      (dlookup inner entity_id = none →
        unregister_entity_with_model m entity_id model_name = (m, .keyError)) ∧
      (∀ system_id, dlookup inner entity_id = some system_id →
        unregister_entity_with_model m entity_id model_name =
          ({ m with model_register :=
              dinsert m.model_register model_name (derase inner entity_id) }, .ok ()) ∧
        dlookup (derase inner entity_id) entity_id = none ∧
        (∀ other, other ≠ entity_id →
          dlookup (derase inner entity_id) other = dlookup inner other))) := by
  refine ⟨fun h => ?_, fun inner hinner => ⟨fun h => ?_, fun system_id hsid => ⟨?_, ?_, ?_⟩⟩⟩
  · simp [unregister_entity_with_model, h]
  · simp [unregister_entity_with_model, hinner, h]
  · simp [unregister_entity_with_model, hinner, hsid]
  · simp [dlookup_derase]
  · intro other hother
    have : ¬ entity_id = other := fun h => hother h.symm
    simp [dlookup_derase, this]

/-- Witness for C9: with entities 7 and 9 registered under `mdl`,
unregistering 7 succeeds, removes 7 and keeps 9. -/
theorem unregister_entity_spec_witness :
    dlookup mmReg.model_register "mdl" = some [(7, "renderer"), (9, "renderer")] ∧
    dlookup [((7 : Nat), "renderer"), (9, "renderer")] 7 = some "renderer" ∧
    unregister_entity_with_model mmReg 7 "mdl" =
      ({ mmReg with model_register := dinsert mmReg.model_register "mdl" (derase [(7, "renderer"), (9, "renderer")] 7) }, .ok ()) :=
  ⟨by decide, by decide,
   (((unregister_entity_spec mmReg 7 "mdl").2 [(7, "renderer"), (9, "renderer")]
      (by decide)).2 "renderer" (by decide)).1⟩

/-- Claim C10: when `load_textured_rectangle` is called with a texture
name the texture manager does not know, the internal `load_model` call
has already committed the fresh 4-vertex/6-index model under the
resolved name and entered the name into `key_counts` before
`get_texkey_from_name` raises: the failure leaves the new,
uninitialized model in the models table. -/
theorem load_textured_rectangle_commits_before_failing
    (vertex_formats : List (String × FormatConfig)) (tm : TextureManager)
    (m : ModelManager) (format_name : String) (format_config : FormatConfig)
    (vb ib : MemoryBlock) (width height : ℚ) (texture_key name : String)
    (hf : dlookup vertex_formats format_name = some format_config)
    (hb : dlookup m.memory_blocks format_name = some (vb, ib))
    (hn : dlookup m.key_counts name = none)
    (ht : dlookup tm.keys texture_key = none) :
    (load_textured_rectangle vertex_formats tm m format_name width height
        texture_key name false).2 = .keyError ∧
    dlookup (load_textured_rectangle vertex_formats tm m format_name width height
        texture_key name false).1.models name = some ⟨4, 6, format_config, name, none⟩ ∧
    dlookup (load_textured_rectangle vertex_formats tm m format_name width height
        texture_key name false).1.key_counts name = some 0 := by
  simp [load_textured_rectangle, load_model, hf, hn, hb, get_texkey_from_name, ht,
    dlookup_dinsert]

/-- Witness for C10: a concrete call with an unknown texture name
raises, yet commits the model `"quad"` and its name counter. -/
theorem load_textured_rectangle_commits_before_failing_witness :
    dlookup vfTest "vertex_format_4f" = some ⟨"vertex_format_4f", 16⟩ ∧
    dlookup mmAlloc.memory_blocks "vertex_format_4f" =
      some (⟨51200, 1, 1⟩, ⟨51200, 1, 1⟩) ∧
    dlookup mmAlloc.key_counts "quad" = none ∧
    dlookup TextureManager.init.keys "ghost" = none ∧
    ((load_textured_rectangle vfTest TextureManager.init mmAlloc "vertex_format_4f"
        5 5 "ghost" "quad" false).2 = .keyError ∧
      dlookup (load_textured_rectangle vfTest TextureManager.init mmAlloc
          "vertex_format_4f" 5 5 "ghost" "quad" false).1.models "quad" =
        some ⟨4, 6, ⟨"vertex_format_4f", 16⟩, "quad", none⟩ ∧
      dlookup (load_textured_rectangle vfTest TextureManager.init mmAlloc
          "vertex_format_4f" 5 5 "ghost" "quad" false).1.key_counts "quad" = some 0) :=
  ⟨by decide, by decide, by decide, by decide,
   load_textured_rectangle_commits_before_failing vfTest TextureManager.init mmAlloc
     "vertex_format_4f" ⟨"vertex_format_4f", 16⟩ ⟨51200, 1, 1⟩ ⟨51200, 1, 1⟩ 5 5
     "ghost" "quad" (by decide) (by decide) (by decide) (by decide)⟩

end KivEnt
